import Mathlib

/-!
Verification development for the criclite cricket-score service.

The definitions below are a shallow embedding of the Python sources
`src/app/cricket_api_fetcher.py`, `src/app/data_fetcher.py` and
`src/app/main.py`.  Pure Python functions become Lean functions; the
stateful pieces (RSS change detector, failure-escalation counter, the
adaptive scheduler loop tail) become explicit state-passing functions;
file effects are modelled either at the level of the snapshot content or
as explicit traces of file operations.  Machine floats for timestamps
and intervals are modelled as rationals.
-/

namespace CricLite

/-! ### String helpers mirroring Python `str.lower` and the `in` substring test -/

/-- Lower-case a string to its character list, mirroring Python `s.lower()`
for the ASCII tournament/status strings this code handles. -/
def lowerChars (s : String) : List Char := s.data.map Char.toLower

/-- Check that the first list is an initial segment of the second. -/
def leadsWith : List Char → List Char → Bool
  | [], _ => true
  | _ :: _, [] => false
  | a :: as, b :: bs => a == b && leadsWith as bs

/-- Python's substring test `needle in hay` on character lists. -/
def hasSub (needle : List Char) : List Char → Bool
  | [] => needle.isEmpty
  | c :: rest => leadsWith needle (c :: rest) || hasSub needle rest

/-! ### Record normalizer: `determine_match_status`, `is_actively_live`
(`cricket_api_fetcher.py` lines 667-699) -/

/-- Raw match object from the primary provider (CricAPI), restricted to the
fields `determine_match_status`, `is_actively_live`, `process_match` read.
Absent dict keys are the Python defaults `False` / `''` / `[]`. -/
structure RawMatch where
  matchStarted : Bool := false
  matchEnded : Bool := false
  status : String := ""
  name : String := ""
  matchType : String := ""
  teams : List String := []

/-- Keyword list of `determine_match_status` line 680 of
`cricket_api_fetcher.py` (note: no `cancelled`). -/
def completedKeywords : List String := ["won by", "tied", "abandoned", "no result"]

/-- Embedding of `determine_match_status` (`cricket_api_fetcher.py` 667-688). -/
def determine_match_status (m : RawMatch) : String :=
  let statusText := lowerChars m.status
  if !m.matchStarted then "upcoming"
  else if m.matchEnded then "completed"
  else if completedKeywords.any fun w => hasSub w.data statusText then "completed"
  else if hasSub "stumps".data statusText || hasSub "lunch".data statusText
       || hasSub "tea".data statusText then "live"
  else "live"

/-- Break-state keywords of `is_actively_live` line 697. -/
def breakWords : List String := ["stumps", "lunch", "tea", "drinks", "rain"]

/-- Embedding of `is_actively_live` (`cricket_api_fetcher.py` 691-699). -/
def is_actively_live (m : RawMatch) : Bool :=
  if determine_match_status m = "live" then
    !(breakWords.any fun w => hasSub w.data (lowerChars m.status))
  else false

/-! ### Spec-side ordered rule table for status derivation (spec section 4.1),
used to compare `determine_match_status` against the specification text. -/

/-- Evaluate an ordered rule table: first rule whose condition holds wins,
with a default when none does.  This follows the spec's words
"apply in order, first match wins". -/
def firstMatching : List ((RawMatch → Bool) × String) → RawMatch → String → String
  | [], _, d => d
  | (cond, res) :: rest, m, d => if cond m then res else firstMatching rest m d

/-- The spec's rule table of section 4.1, parameterised by the completed-match
keyword set so both the claimed and the amended keyword sets can be stated. -/
def specRuleTable (kw : List String) : List ((RawMatch → Bool) × String) :=
  [ (fun m => !m.matchStarted, "upcoming"),
    (fun m => m.matchEnded, "completed"),
    (fun m => kw.any fun w => hasSub w.data (lowerChars m.status), "completed"),
    (fun m => ["stumps", "lunch", "tea"].any fun w => hasSub w.data (lowerChars m.status), "live") ]

/-- Modelled from the spec: status derivation with the keyword set claim C8
states, which includes `cancelled`. -/
def specStatusClaimed (m : RawMatch) : String :=
  firstMatching (specRuleTable ["won by", "tied", "abandoned", "no result", "cancelled"]) m "live"

/-- Status derivation via the spec's ordered rule table with the keyword set
the code actually uses (no `cancelled`). -/
def specStatusAmended (m : RawMatch) : String :=
  firstMatching (specRuleTable ["won by", "tied", "abandoned", "no result"]) m "live"

/-! ### Priority classifier: `get_tournament_priority`
(`cricket_api_fetcher.py` lines 159-237) -/

/-- The apostrophe character, written by code point. -/
def apos : Char := Char.ofNat 39

/-- The dictionary key `Women's` from `PRIORITY_CATEGORIES`. -/
def womensKey : String := ⟨"Women".data ++ [apos, 's']⟩

/-- Embedding of the `PRIORITY_CATEGORIES` dict (insertion order preserved,
as Python dict iteration is over insertion order). -/
def PRIORITY_CATEGORIES : List (String × Nat) :=
  [("ICC World Cup", 1), ("ICC T20 World Cup", 1), ("World Test Championship", 1),
   ("Indian Premier League", 2), ("IPL", 2), ("Big Bash League", 3),
   ("Pakistan Super League", 3), ("Caribbean Premier League", 3), ("The Hundred", 3),
   ("International T20", 2), ("International ODI", 2), ("Test Match", 2),
   (womensKey, 3), ("default", 10)]

/-- Python `dict.get(key, default)` over the association list. -/
def dictGet (l : List (String × Nat)) (k : String) (d : Nat) : Nat :=
  match l.find? fun p => p.1 == k with
  | some p => p.2
  | none => d

/-- The first-fragment-found scan of `get_tournament_priority` lines 214-216:
first table entry whose lower-cased fragment occurs in the lower-cased name. -/
def findFragPriority : List (String × Nat) → List Char → Option Nat
  | [], _ => none
  | (frag, p) :: rest, nameLower =>
    if hasSub (lowerChars frag) nameLower then some p else findFragPriority rest nameLower

/-- The `TOP_TEAMS` list (`cricket_api_fetcher.py` lines 178-181). -/
def TOP_TEAMS : List String :=
  ["india", "australia", "england", "south africa", "new zealand",
   "pakistan", "bangladesh", "sri lanka", "west indies", "afghanistan"]

/-- Python `' '.join(TOP_TEAMS)` used as the haystack on line 221. -/
def topTeamsJoined : String := String.intercalate " " TOP_TEAMS

/-- The `has_top_team` test on line 221: a team is counted as top-tier when
its lower-cased name is a substring of the space-joined top-teams string. -/
def hasTopTeam (teams : List String) : Bool :=
  teams.any fun t => hasSub (lowerChars t) topTeamsJoined.data

/-- Python truthiness of an optional string argument. -/
def optStrTruthy : Option String → Bool
  | none => false
  | some s => !s.isEmpty

/-- Python truthiness of an optional list argument. -/
def optListTruthy : Option (List String) → Bool
  | none => false
  | some l => !l.isEmpty

/-- Embedding of `get_tournament_priority` (`cricket_api_fetcher.py` 209-237). -/
def get_tournament_priority (matchName : String)
    (matchType : Option String := none) (teams : Option (List String) := none) : Nat :=
  let nameLower := lowerChars matchName
  match findFragPriority PRIORITY_CATEGORIES nameLower with
  | some p => p
  | none =>
    let deflt := dictGet PRIORITY_CATEGORIES "default" 10
    let womenOrDefault :=
      if hasSub "women".data nameLower then dictGet PRIORITY_CATEGORIES womensKey 3 else deflt
    if optStrTruthy matchType && optListTruthy teams then
      if hasTopTeam (teams.getD []) then
        if matchType.getD "" = "T20" then dictGet PRIORITY_CATEGORIES "International T20" 2
        else if matchType.getD "" = "ODI" then dictGet PRIORITY_CATEGORIES "International ODI" 2
        else if matchType.getD "" = "TEST" then dictGet PRIORITY_CATEGORIES "Test Match" 2
        else womenOrDefault
      else womenOrDefault
    else deflt

/-! ### Processed match records (`process_match`, `cricket_api_fetcher.py` 717-824)
restricted to the fields the claims read, and the final sort key of
`fetch_live_scores` lines 1228-1231. -/

/-- Upper-case a string, mirroring Python `s.upper()`. -/
def upperStr (s : String) : String := ⟨s.data.map Char.toUpper⟩

/-- A processed match record, restricted to the fields the scheduler and the
sort read: `match_status`, `is_live`, `priority`, `match_time`. -/
structure ProcessedMatch where
  match_status : String
  is_live : Bool
  priority : Nat
  match_time : Option ℚ

/-- Embedding of the status/priority part of `process_match`
(`cricket_api_fetcher.py` 717-824).  The `dateTimeGMT` parsing done by
`parse_match_time` is abstracted as the `matchTime` argument; the remaining
display fields are not modelled. -/
def process_match (m : RawMatch) (matchTime : Option ℚ) : ProcessedMatch :=
  { match_status := determine_match_status m
    is_live := is_actively_live m
    priority := get_tournament_priority m.name (some (upperStr m.matchType)) (some m.teams)
    match_time := matchTime }

/-- The status rank used by the final sort in
`cricket_api_fetcher.fetch_live_scores` lines 1228-1231:
`{"live": 0, "upcoming": 1, "completed": 2}.get(status, 3)`. -/
def statusRank (s : String) : Nat :=
  if s = "live" then 0 else if s = "upcoming" then 1 else if s = "completed" then 2 else 3

/-- Lexicographic order on (status rank, priority), the sort key of the final
sort in `fetch_live_scores`. -/
def sortKeyLe (a b : ProcessedMatch) : Bool :=
  statusRank a.match_status < statusRank b.match_status
  || (statusRank a.match_status == statusRank b.match_status && a.priority ≤ b.priority)

/-- Insert into a key-sorted list after all entries with key less or equal,
preserving relative order of equal keys (Python `list.sort` is stable). -/
def insertStable (a : ProcessedMatch) : List ProcessedMatch → List ProcessedMatch
  | [] => [a]
  | b :: rest => if sortKeyLe b a then b :: insertStable a rest else a :: b :: rest

/-- Stable sort by (status rank, priority), the final sort of
`fetch_live_scores`. -/
def sortMatches : List ProcessedMatch → List ProcessedMatch
  | [] => []
  | a :: rest => insertStable a (sortMatches rest)

/-! ### Snapshot store and the failure path of
`cricket_api_fetcher.fetch_live_scores` (lines 1036-1285) -/

/-- The snapshot document written to `data/live_data.json`: the success path
writes `last_updated`, `last_updated_string` and `matches`; the failure path
adds a `last_checked` key to the previously stored document. -/
structure ApiSnapshot where
  last_updated : ℚ
  last_updated_string : String
  matchList : List ProcessedMatch
  last_checked : Option String

/-- Outcome of one whole fetch cycle: either the pipeline produced a processed
match list, or every source failed (the `except` path of `fetch_live_scores`). -/
inductive CycleOutcome where
  | fetched (ms : List ProcessedMatch)
  | failed

/-- Embedding of `cricket_api_fetcher.fetch_live_scores` at the level of the
snapshot file: given the cycle outcome and the currently persisted snapshot
(`none` when `DATA_FILE` is absent or unreadable), return the snapshot file
after the call and the returned document.  On success the sorted result is
written to the file and returned; on failure the file is not written, and the
previously persisted snapshot is returned annotated with `last_checked`
(lines 1267-1285), or an empty document is returned when none exists. -/
def fetch_live_scores (outcome : CycleOutcome) (disk : Option ApiSnapshot)
    (now : ℚ) (ts : String) : Option ApiSnapshot × ApiSnapshot :=
  match outcome with
  | .fetched ms =>
    let result : ApiSnapshot :=
      { last_updated := now, last_updated_string := ts, matchList := sortMatches ms,
        last_checked := none }
    (some result, result)
  | .failed =>
    match disk with
    | some old => (some old, { old with last_checked := some ts })
    | none =>
      (none, { last_updated := now, last_updated_string := ts, matchList := [],
               last_checked := none })

/-! ### Persistence mechanism as a file-operation trace (claim C5):
`cricket_api_fetcher.py` lines 1240-1242 and `data_fetcher.py` lines 691-698. -/

/-- A file-system operation performed by the persistence code. -/
inductive FileOp where
  | write (path : String) (content : String)
  | move (src : String) (dst : String)
deriving DecidableEq

/-- Path of the snapshot file `data/live_data.json`. -/
def DATA_FILE_PATH : String := "data/live_data.json"

/-- Effect trace of the snapshot save in `cricket_api_fetcher.fetch_live_scores`
line 1241: `with open(DATA_FILE, 'w', ...) as f: json.dump(result, f, ...)` —
a single direct write to the snapshot path. -/
def snapshotSaveOpsApi (content : String) : List FileOp :=
  [FileOp.write DATA_FILE_PATH content]

/-- Effect trace of the summary save in `data_fetcher.update_matches`
lines 691-698: likewise a single direct write to the snapshot path. -/
def snapshotSaveOpsRss (content : String) : List FileOp :=
  [FileOp.write DATA_FILE_PATH content]

/-- Modelled from the spec: atomic persistence writes the document to a
temporary path and then renames/moves it into place. -/
def atomicReplaceOps (tmp : String) (content : String) : List FileOp :=
  [FileOp.write tmp content, FileOp.move tmp DATA_FILE_PATH]

/-- The property claim C5 asserts of every persistence: the operation trace is
a write to a temporary path (distinct from the snapshot path) followed by a
move of that path onto the snapshot path. -/
def IsAtomicReplace (ops : List FileOp) : Prop :=
  ∃ tmp content, tmp ≠ DATA_FILE_PATH ∧ ops = atomicReplaceOps tmp content

/-! ### Failure escalation (`record_api_failure`, `restart_service`,
`cricket_api_fetcher.py` lines 59-130 and 363-391) -/

/-- State of the failure-escalation component, instrumented with counters of
collaborator invocations: the persisted failure count
(`api_failure_count.json`), the number of `send_email_alert` calls, and the
number of `systemctl restart` invocations. -/
structure EscState where
  count : Nat
  alertsSent : Nat
  restarts : Nat
deriving DecidableEq

/-- Effect of `send_email_alert` (lines 71-97): one alert-channel invocation. -/
def send_email_alert (s : EscState) : EscState :=
  { s with alertsSent := s.alertsSent + 1 }

/-- Effect of `restart_service` (lines 99-130): it first sends its own email
alert ("Service Restart Triggered", line 106) and then invokes the service
restart command (line 116). -/
def restart_service (s : EscState) : EscState :=
  let s1 := send_email_alert s
  { s1 with restarts := s1.restarts + 1 }

/-- Effect of `update_api_failure_count` (lines 59-65). -/
def update_api_failure_count (n : Nat) (s : EscState) : EscState :=
  { s with count := n }

/-- Effect of `reset_api_failure_count` (lines 67-69). -/
def reset_api_failure_count (s : EscState) : EscState :=
  update_api_failure_count 0 s

/-- Embedding of `record_api_failure` (lines 363-391): increment the persisted
counter; if the new count reaches 5, send the "Critical API Failure" alert,
reset the counter, and call `restart_service` (which itself sends a second
alert and invokes the restart). -/
def record_api_failure (s : EscState) : EscState :=
  let n := s.count + 1
  let s1 := update_api_failure_count n s
  if 5 ≤ n then
    let s2 := send_email_alert s1
    let s3 := reset_api_failure_count s2
    restart_service s3
  else s1

/-- An orchestrator-level event: a whole-cycle failure (which calls
`record_api_failure`) or a success (which calls `reset_api_failure_count`). -/
inductive ApiEvent where
  | failure
  | success

/-- Fold a sequence of orchestrator events over the escalation state. -/
def runApiEvents (s : EscState) : List ApiEvent → EscState
  | [] => s
  | e :: rest =>
    runApiEvents (match e with
      | .failure => record_api_failure s
      | .success => reset_api_failure_count s) rest

/-! ### Fetch client: `fetch_with_retry` (`cricket_api_fetcher.py` 307-361).

The network is modelled by a stream `outcomes : Nat → AttemptOutcome` giving
the result of the attempt made at each value of `retry_count`, and the
`random.random()` draws by a stream `jitter : Nat → ℚ` indexed by the
attempt number; the returned pair is (the response handed back, or `none`
when the final `raise` is reached) and the list of back-off sleep durations
performed, in order. -/

/-- Outcome of one `requests.get` attempt: a completed HTTP response with a
status code, a timeout exception, or another transport exception. -/
inductive AttemptOutcome where
  | response (status : Nat)
  | timeoutErr
  | connErr

/-- An attempt outcome that raises an exception (retried branches). -/
def AttemptOutcome.isErr : AttemptOutcome → Bool
  | .response _ => false
  | .timeoutErr => true
  | .connErr => true

/-- The back-off duration computed on lines 325 and 341:
`initial_backoff * (2 ** (retry_count - 1)) * (0.5 + random.random())`,
with `r` the value drawn by `random.random()`. -/
def backoffTime (base : ℚ) (retryCount : Nat) (r : ℚ) : ℚ :=
  base * 2 ^ (retryCount - 1) * (1 / 2 + r)

/-- The `while retry_count < max_retries` loop of `fetch_with_retry`,
re-parameterised structurally by the fuel `maxRetries - retryCount`.
A completed response is returned immediately (line 318) whatever its status
code; an exception increments `retry_count` and, when the loop will run
again, sleeps for the jittered back-off. -/
def fwrLoop (outcomes : Nat → AttemptOutcome) (jitter : Nat → ℚ) (base : ℚ) :
    Nat → Nat → List ℚ → Option Nat × List ℚ
  | 0, _, sleeps => (none, sleeps)
  | fuel + 1, retryCount, sleeps =>
    match outcomes retryCount with
    | .response s => (some s, sleeps)
    | _ =>
      if 0 < fuel then
        fwrLoop outcomes jitter base fuel (retryCount + 1)
          (sleeps ++ [backoffTime base (retryCount + 1) (jitter (retryCount + 1))])
      else (none, sleeps)

/-- Embedding of `fetch_with_retry` (`cricket_api_fetcher.py` 307-361):
result `none` models the terminal `raise` after retries are exhausted. -/
def fetch_with_retry (maxRetries : Nat) (base : ℚ)
    (outcomes : Nat → AttemptOutcome) (jitter : Nat → ℚ) : Option Nat × List ℚ :=
  fwrLoop outcomes jitter base maxRetries 0 []

/-- The sequence of sleeps the loop performs when every attempt raises,
starting from a given fuel and `retry_count`: none when fewer than two loop
entries remain, otherwise one jittered back-off and the rest. -/
def expectedSleeps (jitter : Nat → ℚ) (base : ℚ) : Nat → Nat → List ℚ
  | 0, _ => []
  | 1, _ => []
  | fuel + 2, retryCount =>
    backoffTime base (retryCount + 1) (jitter (retryCount + 1))
      :: expectedSleeps jitter base (fuel + 1) (retryCount + 1)

/-! ### Change detector: `fetch_rss_feed` (`data_fetcher.py` 213-307) -/

/-- The mutable `RSS_FETCH_STRATEGY` dict (`data_fetcher.py` 22-27), minus the
constant `wait_times` list which is modelled separately. -/
structure RssState where
  lastHash : Option Nat
  lastChecked : ℚ
  unchangedCount : Nat
deriving DecidableEq

/-- The `wait_times` tier list, in minutes (`data_fetcher.py` line 26). -/
def waitTimes : List Nat := [2, 3, 5, 10, 15, 20]

/-- The current wait in seconds (`data_fetcher.py` line 223):
`wait_times[min(unchanged_count, len(wait_times) - 1)] * 60`. -/
def currentWaitSeconds (st : RssState) : ℚ :=
  ((waitTimes.getD (min st.unchangedCount (waitTimes.length - 1)) 0 : Nat) : ℚ) * 60

/-- Embedding of `fetch_rss_feed` (`data_fetcher.py` 213-307).  The HTTP fetch
and XML parse are abstracted: `fetchOk` is true when the request returned
status 200 and parsed, `contentHash` is the MD5 fingerprint of the body
(modelled as an opaque number), and `parsed` the match list extracted from the
feed.  Returns the updated `RSS_FETCH_STRATEGY` state and the function's
return value (`none` models returning `None`). -/
def fetch_rss_feed {α : Type} (st : RssState) (now : ℚ) (fetchOk : Bool)
    (contentHash : Nat) (parsed : List α) : RssState × Option (List α) :=
  if now - st.lastChecked < currentWaitSeconds st then (st, none)
  else if !fetchOk then (st, none)
  else if parsed.isEmpty then (st, none)
  else
    let st1 := if st.lastHash = none then
      { st with lastHash := some contentHash, lastChecked := now } else st
    if some contentHash = st1.lastHash then
      ({ st1 with unchangedCount := st1.unchangedCount + 1, lastChecked := now },
       some parsed)
    else
      ({ lastHash := some contentHash, lastChecked := now, unchangedCount := 0 },
       some parsed)

/-! ### Adaptive scheduler: the tail of one `update_cricket_data` cycle
(`main.py` 1332-1537) -/

/-- Minimum polling interval, seconds (`main.py` line 1334). -/
def MIN_INTERVAL : ℚ := 60

/-- Maximum polling interval, seconds (`main.py` line 1335). -/
def MAX_INTERVAL : ℚ := 600

/-- The change-detection interval adjustment (`main.py` 1472-1495): when the
data hash is unchanged, bump the no-change counter and every fifth unchanged
cycle walk the interval up 60 -> 120 -> 300 -> 600; when the hash changed and
the counter was positive, reset counter and interval. -/
def adaptInterval (noChangeCount : Nat) (interval : ℚ) (hashUnchanged : Bool) :
    Nat × ℚ :=
  if hashUnchanged then
    let ncc := noChangeCount + 1
    if ncc % 5 = 0 then
      (ncc, if interval = 60 then 120
            else if interval = 120 then 300
            else if interval < MAX_INTERVAL then MAX_INTERVAL
            else interval)
    else (ncc, interval)
  else
    if 0 < noChangeCount then (0, MIN_INTERVAL) else (noChangeCount, interval)

/-- The starting-soon scan (`main.py` 1510-1516): some match is `upcoming`,
has a truthy `match_time`, and starts strictly between `now` and
`now + current_interval + 60`. -/
def matchStartingSoon (ms : List ProcessedMatch) (now interval : ℚ) : Bool :=
  ms.any fun m =>
    m.match_status == "upcoming" &&
    (match m.match_time with
     | none => false
     | some t => t != 0 && decide (0 < t - now) && decide (t - now < interval + 60))

/-- Result of the tail of one scheduler cycle: the updated no-change counter,
the duration the loop will actually sleep before the next cycle
(`actual_wait_seconds`), and the `current_interval` value carried into the
next cycle. -/
structure CycleEnd where
  noChangeCount : Nat
  actualWait : ℚ
  nextInterval : ℚ
deriving DecidableEq

/-- Embedding of `update_cricket_data` from the hash comparison to the sleep
(`main.py` 1464-1537), for a cycle that obtained data: the interval is
adjusted by change detection, `actual_wait_seconds = max(1, interval -
processing_time)` is computed (line 1501), and only then does the
starting-soon scan run (lines 1503-1521), lowering `current_interval` to the
minimum when it fires; the cycle then sleeps `actual_wait_seconds`
(line 1537). -/
def schedulerCycleTail (hashUnchanged : Bool) (noChangeCount : Nat)
    (interval processingTime : ℚ) (ms : List ProcessedMatch) (now : ℚ) : CycleEnd :=
  let p := adaptInterval noChangeCount interval hashUnchanged
  let wait := max 1 (p.2 - processingTime)
  let soon := matchStartingSoon ms now p.2
  let itv2 := if soon && decide (MIN_INTERVAL < p.2) then MIN_INTERVAL else p.2
  { noChangeCount := p.1, actualWait := wait, nextInterval := itv2 }

/-! ## Claim C8: status derivation keyword table -/

/-- Claim C8 (counterexample): the claim's keyword table includes `cancelled`,
but `determine_match_status` does not: for a started, un-ended match whose
status text is "Match cancelled", the code returns `live` while the claimed
rule table returns `completed`. -/
theorem C8_counterexample :
    determine_match_status { matchStarted := true, status := "Match cancelled" } = "live" ∧
    specStatusClaimed { matchStarted := true, status := "Match cancelled" } = "completed" ∧
    determine_match_status { matchStarted := true, status := "Match cancelled" }
      ≠ specStatusClaimed { matchStarted := true, status := "Match cancelled" } := by
  decide

/-- Claim C8 (amended): for every raw match, `determine_match_status` returns
exactly the status given by the ordered rules of section 4.1 applied in order
with first match winning, with the completed-match keyword set
{won by, tied, abandoned, no result} — without `cancelled`. -/
theorem C8_status_rules_amended (m : RawMatch) :
    determine_match_status m = specStatusAmended m := by
  simp only [determine_match_status, specStatusAmended, specRuleTable, firstMatching,
    completedKeywords, List.any_cons, List.any_nil, Bool.or_false, Bool.or_assoc]

/-! ## Claim C9: top-tier team test in `get_tournament_priority` -/

/-- Claim C9: in `get_tournament_priority`, a team counts as top-tier whenever
its lower-cased name is a substring of the space-joined concatenation of the
top-teams list; in particular, for every teams list containing an empty-string
team, with match type T20, ODI or TEST and a tournament name matching no
table fragment, the returned priority is the international priority 2 rather
than the default 10. -/
theorem C9_top_team_substring :
    (∀ (teams : List String) (t : String), t ∈ teams →
       hasSub (lowerChars t) topTeamsJoined.data = true → hasTopTeam teams = true) ∧
    (∀ (name : String) (teams : List String) (mt : String),
       (mt = "T20" ∨ mt = "ODI" ∨ mt = "TEST") →
       findFragPriority PRIORITY_CATEGORIES (lowerChars name) = none →
       "" ∈ teams →
       get_tournament_priority name (some mt) (some teams) = 2) := by
  constructor
  · intro teams t ht hsub
    exact List.any_eq_true.mpr ⟨t, ht, hsub⟩
  · intro name teams mt hmt hfrag hmem
    have hie : teams.isEmpty = false := by
      cases teams with
      | nil => simp at hmem
      | cons a l => rfl
    have htop : hasTopTeam teams = true :=
      List.any_eq_true.mpr ⟨"", hmem, by decide⟩
    unfold get_tournament_priority
    dsimp only
    rw [hfrag]
    rcases hmt with h | h | h <;> subst h <;>
      simp [optStrTruthy, optListTruthy, hie, htop, dictGet]
    all_goals decide

/-- Claim C9 (witness): the tournament name "Quad Series" matches no table
fragment, the teams list contains an empty string, and the priority returned
for a T20 is 2. -/
theorem C9_witness :
    get_tournament_priority "Quad Series" (some "T20") (some [""]) = 2 :=
  C9_top_team_substring.2 "Quad Series" [""] "T20" (Or.inl rfl) (by decide) (by decide)

/-! ## Claim C10: totality of status derivation, `unknown` rank unreachable -/

/-- Claim C10: `determine_match_status` is total and always returns one of
`upcoming`, `completed` or `live`, never `unknown`; records normalized by
`process_match` carry that status, so the `unknown` sort rank 3 used by the
final sort in `fetch_live_scores` is unreachable for them. -/
theorem C10_status_total (m : RawMatch) (mt : Option ℚ) :
    (determine_match_status m = "upcoming" ∨ determine_match_status m = "completed"
      ∨ determine_match_status m = "live") ∧
    (process_match m mt).match_status = determine_match_status m ∧
    statusRank ((process_match m mt).match_status) ≠ 3 := by
  have h : determine_match_status m = "upcoming" ∨ determine_match_status m = "completed"
      ∨ determine_match_status m = "live" := by
    unfold determine_match_status
    dsimp only
    repeat' split
    all_goals first
      | exact Or.inl rfl
      | exact Or.inr (Or.inl rfl)
      | exact Or.inr (Or.inr rfl)
  refine ⟨h, rfl, ?_⟩
  have h2 : (process_match m mt).match_status = determine_match_status m := rfl
  rw [h2]
  rcases h with h | h | h <;> rw [h] <;> simp [statusRank]

/-! ## Claim C1: starting-soon override and the cycle's sleep -/

/-- Claim C1 (counterexample): with a backoff interval of 600s, zero
processing time and an upcoming match starting 30s from now, the starting-soon
scan fires and the interval for later cycles drops to the minimum, yet the
wait actually slept before the next cycle is 600s, not the minimum 60s —
`actual_wait_seconds` is computed on line 1501 of main.py before the override
on lines 1503-1521 runs. -/
theorem C1_counterexample :
    matchStartingSoon [⟨"upcoming", false, 10, some 1030⟩] 1000 600 = true ∧
    (schedulerCycleTail true 0 600 0 [⟨"upcoming", false, 10, some 1030⟩] 1000).nextInterval
      = MIN_INTERVAL ∧
    (schedulerCycleTail true 0 600 0 [⟨"upcoming", false, 10, some 1030⟩] 1000).actualWait = 600 ∧
    (schedulerCycleTail true 0 600 0 [⟨"upcoming", false, 10, some 1030⟩] 1000).actualWait
      ≠ MIN_INTERVAL := by
  norm_num [schedulerCycleTail, adaptInterval, matchStartingSoon, MIN_INTERVAL, MAX_INTERVAL]

/-- Claim C1 (amended): when the fetched data contains an upcoming match with
start time strictly between now and now + current_interval + 60s and the
current interval exceeds the minimum, the scheduler lowers `current_interval`
to the minimum tier for subsequent cycles, but the wait it sleeps before the
next cycle is the `max(1, interval - processing_time)` value computed from the
backoff interval before the override, not the minimum. -/
theorem C1_starting_soon_override_next_cycle (hashUnchanged : Bool) (ncc : Nat)
    (interval pt now : ℚ) (ms : List ProcessedMatch)
    (hsoon : matchStartingSoon ms now (adaptInterval ncc interval hashUnchanged).2 = true)
    (hgt : MIN_INTERVAL < (adaptInterval ncc interval hashUnchanged).2) :
    (schedulerCycleTail hashUnchanged ncc interval pt ms now).nextInterval = MIN_INTERVAL ∧
    (schedulerCycleTail hashUnchanged ncc interval pt ms now).actualWait
      = max 1 ((adaptInterval ncc interval hashUnchanged).2 - pt) := by
  unfold schedulerCycleTail
  dsimp only
  rw [hsoon]
  simp [hgt]

/-- Claim C1 (witness): the amended behaviour at the concrete cycle of the
counterexample. -/
theorem C1_witness :
    (schedulerCycleTail true 0 600 0 [⟨"upcoming", false, 10, some 1030⟩] 1000).nextInterval
      = MIN_INTERVAL ∧
    (schedulerCycleTail true 0 600 0 [⟨"upcoming", false, 10, some 1030⟩] 1000).actualWait
      = max 1 ((adaptInterval 0 600 true).2 - 0) :=
  C1_starting_soon_override_next_cycle true 0 600 0 1000 [⟨"upcoming", false, 10, some 1030⟩]
    (by norm_num [matchStartingSoon, adaptInterval])
    (by norm_num [adaptInterval, MIN_INTERVAL, MAX_INTERVAL])

/-! ## Claim C2: change detector's first call -/

/-- Claim C2 (counterexample): on the first call (no stored fingerprint) the
fingerprint is stored (lines 269-271 of data_fetcher.py) and then the hash
comparison on line 280 matches the just-stored value, so the unchanged counter
IS incremented — the claim says it is not. -/
theorem C2_counterexample :
    (fetch_rss_feed (α := Nat) ⟨none, 0, 0⟩ 1000000 true 42 [7]).1.unchangedCount = 1 ∧
    (fetch_rss_feed (α := Nat) ⟨none, 0, 0⟩ 1000000 true 42 [7]).1.lastHash = some 42 ∧
    (fetch_rss_feed (α := Nat) ⟨none, 0, 0⟩ 1000000 true 42 [7]).1.unchangedCount ≠ 0 := by
  norm_num [fetch_rss_feed, currentWaitSeconds, waitTimes]

/-- Claim C2 (amended): on the first call with no stored fingerprint, the
fingerprint is stored and the unchanged counter is incremented by exactly one
(the call then takes the hash-matched branch and returns the parsed matches);
on any later call whose content hash equals the stored fingerprint, the
unchanged counter is likewise incremented by exactly one and the parsed
matches are returned. -/
theorem C2_change_detector_first_call {α : Type} (st : RssState) (now : ℚ)
    (hsh : Nat) (ms : List α)
    (hwait : ¬ now - st.lastChecked < currentWaitSeconds st) (hne : ms ≠ []) :
    (st.lastHash = none →
      fetch_rss_feed st now true hsh ms =
        ({ lastHash := some hsh, lastChecked := now,
           unchangedCount := st.unchangedCount + 1 }, some ms)) ∧
    (st.lastHash = some hsh →
      fetch_rss_feed st now true hsh ms =
        ({ st with unchangedCount := st.unchangedCount + 1, lastChecked := now }, some ms)) := by
  have hie : ms.isEmpty = false := by cases ms with | nil => simp at hne | cons a l => rfl
  constructor
  · intro h0
    unfold fetch_rss_feed
    simp [hwait, hie, h0]
  · intro h1
    unfold fetch_rss_feed
    simp [hwait, hie, h1]

/-- Claim C2 (witness): the first call on the fresh detector state stores the
fingerprint and leaves the counter at one. -/
theorem C2_witness :
    fetch_rss_feed (α := Nat) ⟨none, 0, 0⟩ 1000000 true 42 [7]
      = (⟨some 42, 1000000, 1⟩, some [7]) :=
  (C2_change_detector_first_call ⟨none, 0, 0⟩ 1000000 42 [7]
    (by norm_num [currentWaitSeconds, waitTimes]) (by simp)).1 rfl

/-! ## Claim C3: escalation at the failure threshold -/

/-- Claim C3 (counterexample): when the persisted counter reaches 5, TWO alert
invocations occur, not one — `record_api_failure` sends the "Critical API
Failure" alert (line 382 of cricket_api_fetcher.py) and `restart_service`
sends its own "Service Restart Triggered" alert (line 106) before invoking the
restart. -/
theorem C3_counterexample :
    record_api_failure ⟨4, 0, 0⟩ = ⟨0, 2, 1⟩ ∧
    (record_api_failure ⟨4, 0, 0⟩).alertsSent ≠ 1 := by
  decide

/-- Claim C3 (amended): when the persisted consecutive-failure counter reaches
5, exactly two alert invocations and exactly one service-restart invocation
occur, and the counter is 0 immediately afterwards; a single intervening
success resets the counter to 0, so four failures, a success and four more
failures trigger no restart. -/
theorem C3_escalation_at_threshold (s : EscState) (h : s.count = 4) :
    record_api_failure s =
      { count := 0, alertsSent := s.alertsSent + 2, restarts := s.restarts + 1 } ∧
    (∀ s2 : EscState, reset_api_failure_count s2 = { s2 with count := 0 }) ∧
    runApiEvents ⟨0, 0, 0⟩
      [.failure, .failure, .failure, .failure, .success, .failure, .failure, .failure, .failure]
      = ⟨4, 0, 0⟩ := by
  refine ⟨?_, fun s2 => rfl, by decide⟩
  simp [record_api_failure, update_api_failure_count, reset_api_failure_count,
    send_email_alert, restart_service, h]

/-- Claim C3 (witness): the fifth consecutive failure from a state with five
alerts and seven restarts already recorded. -/
theorem C3_witness :
    record_api_failure ⟨4, 5, 7⟩ = { count := 0, alertsSent := 5 + 2, restarts := 7 + 1 } ∧
    (∀ s2 : EscState, reset_api_failure_count s2 = { s2 with count := 0 }) ∧
    runApiEvents ⟨0, 0, 0⟩
      [.failure, .failure, .failure, .failure, .success, .failure, .failure, .failure, .failure]
      = ⟨4, 0, 0⟩ :=
  C3_escalation_at_threshold ⟨4, 5, 7⟩ rfl

/-! ## Claim C4: failed cycle preserves the snapshot -/

/-- Claim C4: when a whole fetch cycle fails, `fetch_live_scores` leaves the
on-disk snapshot unchanged — in particular it is never overwritten with an
empty match list — and returns the previously persisted snapshot annotated
with an added `last_checked` timestamp. -/
theorem C4_failed_cycle_preserves_snapshot (disk : Option ApiSnapshot) (now : ℚ) (ts : String) :
    (fetch_live_scores .failed disk now ts).1 = disk ∧
    ∀ old, disk = some old →
      (fetch_live_scores .failed disk now ts).2 = { old with last_checked := some ts } := by
  cases disk with
  | none => exact ⟨rfl, fun old h => by cases h⟩
  | some o => exact ⟨rfl, fun old h => by cases h; rfl⟩

/-- Claim C4 (witness): a failed cycle over a concrete persisted snapshot. -/
theorem C4_witness :
    (fetch_live_scores .failed (some ⟨100, "t0", [], none⟩) 200 "t1").1
      = some ⟨100, "t0", [], none⟩ ∧
    (fetch_live_scores .failed (some ⟨100, "t0", [], none⟩) 200 "t1").2
      = { (⟨100, "t0", [], none⟩ : ApiSnapshot) with last_checked := some "t1" } :=
  ⟨(C4_failed_cycle_preserves_snapshot (some ⟨100, "t0", [], none⟩) 200 "t1").1,
   (C4_failed_cycle_preserves_snapshot (some ⟨100, "t0", [], none⟩) 200 "t1").2
     ⟨100, "t0", [], none⟩ rfl⟩

/-! ## Claim C5: persistence mechanism -/

/-- Claim C5 (counterexample): the snapshot save of `fetch_live_scores` is not
a temp-write-then-rename — it is a single direct write to the snapshot path. -/
theorem C5_counterexample : ¬ IsAtomicReplace (snapshotSaveOpsApi "abc") := by
  rintro ⟨tmp, c, hne, heq⟩
  simp [snapshotSaveOpsApi, atomicReplaceOps] at heq

/-- Claim C5 (amended): every persistence of the snapshot writes the JSON
document directly in place to the snapshot path with a single write; no
temporary path or rename/move is used, in either
`cricket_api_fetcher.fetch_live_scores` or `data_fetcher.update_matches`. -/
theorem C5_snapshot_write_in_place (c : String) :
    snapshotSaveOpsApi c = [FileOp.write DATA_FILE_PATH c] ∧
    snapshotSaveOpsRss c = [FileOp.write DATA_FILE_PATH c] ∧
    ¬ IsAtomicReplace (snapshotSaveOpsApi c) ∧
    ¬ IsAtomicReplace (snapshotSaveOpsRss c) := by
  refine ⟨rfl, rfl, ?_, ?_⟩ <;>
    · rintro ⟨tmp, c2, hne, heq⟩
      simp [snapshotSaveOpsApi, snapshotSaveOpsRss, atomicReplaceOps] at heq

/-! ## Claims C6 and C7: retry back-off and response handling -/

/-- Helper: when every attempt raises, the retry loop exhausts its fuel and
performs exactly the expected sequence of jittered back-off sleeps. -/
theorem fwrLoop_all_fail (outs : Nat → AttemptOutcome) (jit : Nat → ℚ) (base : ℚ)
    (hf : ∀ k, (outs k).isErr = true) :
    ∀ fuel rc sleeps, fwrLoop outs jit base fuel rc sleeps
      = (none, sleeps ++ expectedSleeps jit base fuel rc) := by
  intro fuel
  induction fuel with
  | zero => intro rc sleeps; simp [fwrLoop, expectedSleeps]
  | succ f ih =>
    intro rc sleeps
    have hfo := hf rc
    rw [fwrLoop.eq_2]
    cases houts : outs rc with
    | response s => rw [houts] at hfo; simp [AttemptOutcome.isErr] at hfo
    | timeoutErr =>
      cases f with
      | zero => simp [expectedSleeps]
      | succ f2 =>
        simp only [Nat.succ_pos, if_true, ih, expectedSleeps, List.append_assoc,
          List.singleton_append]
    | connErr =>
      cases f with
      | zero => simp [expectedSleeps]
      | succ f2 =>
        simp only [Nat.succ_pos, if_true, ih, expectedSleeps, List.append_assoc,
          List.singleton_append]

/-- Helper: closed form of the expected sleep sequence. -/
theorem expectedSleeps_eq_map (jit : Nat → ℚ) (base : ℚ) :
    ∀ fuel rc, expectedSleeps jit base fuel rc
      = (List.range (fuel - 1)).map fun i => backoffTime base (rc + 1 + i) (jit (rc + 1 + i)) := by
  intro fuel
  induction fuel with
  | zero => intro rc; simp [expectedSleeps]
  | succ f ih =>
    intro rc
    cases f with
    | zero => simp [expectedSleeps]
    | succ f2 =>
      have h1 : expectedSleeps jit base (f2 + 1 + 1) rc
          = backoffTime base (rc + 1) (jit (rc + 1))
            :: expectedSleeps jit base (f2 + 1) (rc + 1) := rfl
      rw [h1, ih]
      have h2 : (f2 + 1 + 1 : Nat) - 1 = f2 + 1 := rfl
      have h3 : (f2 + 1 : Nat) - 1 = f2 := rfl
      rw [h2, h3, List.range_succ_eq_map, List.map_cons, List.map_map]
      congr 1
      apply List.map_congr_left
      intro i hi
      simp only [Function.comp_apply]
      rw [show rc + 1 + Nat.succ i = rc + 1 + 1 + i from by omega]

/-- Claim C6 (counterexample): the jitter draw 3/4 is a possible value of
`random.random()`, and with it the sleep before the second attempt is
`1 * 2^0 * (0.5 + 0.75) = 5/4` — outside the claimed range
`base * 2^(attempt-1) * [0.5, 1.0]`, whose upper bound at attempt 1 is 1. -/
theorem C6_counterexample :
    ((0 : ℚ) ≤ 3/4 ∧ (3/4 : ℚ) < 1)
    ∧ fetch_with_retry 3 1 (fun _ => AttemptOutcome.timeoutErr) (fun _ => (3 : ℚ)/4)
        = (none, [5/4, 5/2])
    ∧ ¬ ((5/4 : ℚ) ≤ 1 * 2 ^ (1 - 1) * 1) := by
  refine ⟨by norm_num, ?_, by norm_num⟩
  norm_num [fetch_with_retry, fwrLoop, backoffTime]

/-- Claim C6 (amended): between consecutive retry attempts, `fetch_with_retry`
sleeps `base_backoff * 2^(attempt-1) * (0.5 + r)` seconds where `r` is the
`random.random()` draw in [0, 1) — so the multiplier lies in [0.5, 1.5), not
[0.5, 1.0] — for every attempt number from 1 up to max_retries - 1. -/
theorem C6_backoff_formula (base : ℚ) (outs : Nat → AttemptOutcome) (jit : Nat → ℚ)
    (maxR : Nat) (hb : 0 < base) (hjit : ∀ k, 0 ≤ jit k ∧ jit k < 1)
    (hf : ∀ k, (outs k).isErr = true) :
    (fetch_with_retry maxR base outs jit).2
      = (List.range (maxR - 1)).map (fun i => backoffTime base (i + 1) (jit (i + 1)))
    ∧ ∀ k, 1 ≤ k →
        base * 2 ^ (k - 1) * (1 / 2) ≤ backoffTime base k (jit k)
        ∧ backoffTime base k (jit k) < base * 2 ^ (k - 1) * (3 / 2) := by
  constructor
  · rw [fetch_with_retry, fwrLoop_all_fail outs jit base hf maxR 0 [],
        expectedSleeps_eq_map]
    simp only [List.nil_append]
    apply List.map_congr_left
    intro i hi
    rw [show 0 + 1 + i = i + 1 from by omega]
  · intro k hk
    have hp : (0 : ℚ) < base * 2 ^ (k - 1) := by positivity
    obtain ⟨hj0, hj1⟩ := hjit k
    unfold backoffTime
    constructor
    · nlinarith
    · nlinarith

/-- Claim C6 (witness): three timed-out attempts with jitter draw 3/4 sleep
exactly the jittered exponential sequence. -/
theorem C6_witness :
    ((fetch_with_retry 3 1 (fun _ => AttemptOutcome.timeoutErr) (fun _ => (3 : ℚ)/4)).2
      = (List.range (3 - 1)).map (fun i => backoffTime 1 (i + 1) ((fun _ => (3 : ℚ)/4) (i + 1))))
    ∧ ∀ k, 1 ≤ k →
        (1 : ℚ) * 2 ^ (k - 1) * (1 / 2) ≤ backoffTime 1 k ((fun _ => (3 : ℚ)/4) k)
        ∧ backoffTime 1 k ((fun _ => (3 : ℚ)/4) k) < 1 * 2 ^ (k - 1) * (3 / 2) :=
  C6_backoff_formula 1 (fun _ => AttemptOutcome.timeoutErr) (fun _ => (3 : ℚ)/4) 3
    (by norm_num) (fun k => by norm_num) (fun k => rfl)

/-- Claim C7 (counterexample): an attempt that completes with HTTP status 500
is returned immediately by `fetch_with_retry` with no back-off sleeps and no
further attempts — non-200 responses are not retried by it. -/
theorem C7_counterexample :
    fetch_with_retry 3 1 (fun _ => AttemptOutcome.response 500) (fun _ => 0) = (some 500, [])
    ∧ (500 : Nat) ≠ 200 := by
  refine ⟨?_, by decide⟩
  norm_num [fetch_with_retry, fwrLoop]

/-- Claim C7 (amended): `fetch_with_retry` returns any completed HTTP response
immediately on the attempt that produced it, whatever its status code, with no
back-off sleep; only timeout and transport exceptions are retried, so a
non-200 status surfaces to the caller as a returned response after zero
retries (the caller then records a single API failure itself). -/
theorem C7_response_returned_without_retry (maxR : Nat) (base : ℚ)
    (outs : Nat → AttemptOutcome) (jit : Nat → ℚ) (s : Nat)
    (hm : 0 < maxR) (h0 : outs 0 = .response s) :
    fetch_with_retry maxR base outs jit = (some s, []) := by
  cases maxR with
  | zero => omega
  | succ n =>
    rw [fetch_with_retry, fwrLoop.eq_2, h0]

/-- Claim C7 (witness): a first attempt completing with status 404 is returned
at once. -/
theorem C7_witness :
    fetch_with_retry 3 1 (fun _ => AttemptOutcome.response 404) (fun _ => 0) = (some 404, []) :=
  C7_response_returned_without_retry 3 1 (fun _ => AttemptOutcome.response 404)
    (fun _ => 0) 404 (by norm_num) rfl

end CricLite
